import Mathlib

/-!
Verification development for the `dash-imoveis` dashboard (src/app.py).

The file shallowly embeds the parts of `app.py` that the specification's
claims concern:

* the ingestion pipeline (module level, lines 52-145): `properties` JSON
  decode (`parse_properties`, lines 95-108), numeric coercion and zero fill
  of the property fields (lines 125-127), price fill and range filter
  (lines 133-135), and row-id assignment (line 61);
* the query engine and aggregator inside the `atualizar_dashboard`
  callback (lines 316-428);
* the thumbnail formatter `create_thumbnail_html` (lines 137-140) and the
  URL extraction of `exibir_imagem` (lines 462-479).

Machine floats of the source are modelled as exact rationals, pandas NaN /
Python None as `Option`, and a pandas `KeyError` (access to a column the
table does not have) as `Except.error`.  Library calls (`json.loads`,
`pd.to_numeric`, `re.search`) are modelled on the fragment of inputs the
dataset and the claims exercise; each such modelling choice is documented
at the definition it concerns.
-/

namespace DashImoveis

/-! ## Numeric coercion (`pd.to_numeric(..., errors='coerce')`) -/

/-- Value of a digit run, the accumulator loop of decimal parsing. -/
def digitsToNat (l : List Char) : Nat :=
  l.foldl (fun a c => a * 10 + (c.toNat - 48)) 0

/-- Parsing of an unsigned decimal literal: a digit run with at most one
decimal point and at least one digit.  This is the fragment of the numeric
parser behind `pd.to_numeric` that the claims exercise; scientific
notation is outside the modelled fragment. -/
def parseUnsigned (l : List Char) : Option ℚ :=
  let ip := l.takeWhile Char.isDigit
  let rest := l.dropWhile Char.isDigit
  match rest with
  | [] => if ip.isEmpty then none else some (digitsToNat ip)
  | '.' :: frac =>
      if frac.all Char.isDigit && !(ip.isEmpty && frac.isEmpty) then
        some ((digitsToNat ip : ℚ) + (digitsToNat frac : ℚ) / (10 : ℚ) ^ frac.length)
      else none
  | _ => none

/-- Models `pd.to_numeric` applied to one string cell with `errors='coerce'`:
optional surrounding whitespace, optional sign, then an unsigned decimal
literal; `none` models NaN (the coercion failure result). -/
def parseNum (s : String) : Option ℚ :=
  let t := ((s.data.dropWhile Char.isWhitespace).reverse.dropWhile Char.isWhitespace).reverse
  match t with
  | '-' :: r => (parseUnsigned r).map (fun q => -q)
  | '+' :: r => parseUnsigned r
  | _ => parseUnsigned t

/-! ## `properties` decode (`parse_properties`, app.py lines 95-108) -/

/-- A decoded JSON value sitting in the `value` slot of a `properties`
item.  `pnull` covers both JSON `null` and a missing `"value"` key (both
give Python `None`); `pother` covers values of any other shape (arrays,
objects), which `pd.to_numeric` coerces to NaN. -/
inductive PropVal where
  | pstr (s : String)
  | pnum (q : ℚ)
  | pbool (b : Bool)
  | pnull
  | pother
deriving DecidableEq, Repr

/-- One item of the decoded `properties` array: `item.get("name")` and
`item.get("value")` of the source.  A missing `"name"` key is `none`. -/
structure PropItem where
  name : Option String
  value : PropVal
deriving DecidableEq, Repr

/-- Result of `parse_properties` for one row: the five fixed keys, each
`none` when absent (the `np.nan` defaults of the source). -/
structure ParsedProps where
  category : Option PropVal
  real_estate_type : Option PropVal
  rooms : Option PropVal
  bathrooms : Option PropVal
  garage_spaces : Option PropVal
deriving DecidableEq, Repr

/-- The all-missing `ParsedProps`, produced by the exception branch of
`parse_properties` and by a missing `properties` column. -/
def emptyParsed : ParsedProps := ⟨none, none, none, none, none⟩

/-- Models the dict comprehension of `parse_properties`
(`props_dict = \x7bitem.get("name"): item.get("value") for item in props\x7d`)
followed by `props_dict.get(key, np.nan)`: the value of the last item
carrying `key` as its name, `none` when no item does. -/
def propsGet (items : List PropItem) (key : String) : Option PropVal :=
  (items.reverse.find? (fun it => it.name == some key)).map (fun it => it.value)

/-- Models `parse_properties` (app.py lines 95-108).  The argument is the
result of `json.loads` on the row's `properties` string: `none` models the
exception branch (malformed JSON, or a shape on which the comprehension
raises, e.g. non-dict items), `some items` the successfully decoded array. -/
def parse_properties : Option (List PropItem) → ParsedProps
  | none => emptyParsed
  | some items =>
      { category := propsGet items "category"
        real_estate_type := propsGet items "real_estate_type"
        rooms := propsGet items "rooms"
        bathrooms := propsGet items "bathrooms"
        garage_spaces := propsGet items "garage_spaces" }

/-- Models `pd.to_numeric(col, errors='coerce')` on one decoded property
value (app.py lines 125-127): numbers pass through, booleans become 1/0,
strings are parsed, everything else (including the `np.nan` default for a
missing key) becomes NaN (`none`). -/
def to_numeric_prop : Option PropVal → Option ℚ
  | none => none
  | some (PropVal.pstr s) => parseNum s
  | some (PropVal.pnum q) => some q
  | some (PropVal.pbool b) => some (if b then 1 else 0)
  | some PropVal.pnull => none
  | some PropVal.pother => none

/-- Models `pd.to_numeric(col, errors='coerce').fillna(0)` (app.py lines
125-127): coercion first, then the zero fill of the NaN results. -/
def numericFill0 (v : Option PropVal) : ℚ := (to_numeric_prop v).getD 0

/-- Boolean observation used to state sign hypotheses about coerced
property values: `true` when the coercion either fails (so the zero fill
applies) or yields a non-negative number. -/
def coercedNonneg (v : Option PropVal) : Bool :=
  match to_numeric_prop v with
  | none => true
  | some q => decide (0 ≤ q)

/-! ## Ingestion (module level, app.py lines 52-135)

The raw CSV columns the claims concern are `price_value` and `properties`.
The location columns (lines 82-93 and 129-132) and the thumbnail column
(lines 142-145) are normalized independently of these and no claim relates
them to the rows kept, so they are not carried through `ingest`.  The
`price_value` column is assumed present: line 133 dereferences it
unconditionally, so its absence aborts startup before a base table
exists. -/

/-- One raw CSV row, restricted to the claim-relevant columns.
`price_value` is the raw cell (`none` models an NA cell); `properties` is
the `json.loads` result of the row's properties string as in
`parse_properties`. -/
structure RawRow where
  price_value : Option String
  properties : Option (List PropItem)
deriving DecidableEq, Repr

/-- One row of the base table, restricted to the claim-relevant columns
produced by ingestion. -/
structure NormRow where
  id : Nat
  price_value : ℚ
  category : Option PropVal
  real_estate_type : Option PropVal
  rooms : ℚ
  bathrooms : ℚ
  garage_spaces : ℚ
deriving DecidableEq, Repr

/-- Models `df['id'] = range(1, len(df) + 1)` (app.py line 61): pair each
row with its 1-based position, in order. -/
def assignIds (i : Nat) : List RawRow → List (Nat × RawRow)
  | [] => []
  | r :: rs => (i, r) :: assignIds (i + 1) rs

/-- Normalization of one raw row (app.py lines 65-66, 110-127, 133): the
`properties` decode (skipped when the column is absent, in which case all
five fields start as NaN, lines 118-123), the numeric coercion and zero
fill of rooms/bathrooms/garage_spaces, and the price coercion and zero
fill. -/
def normalizeRaw (hasProps : Bool) (i : Nat) (raw : RawRow) : NormRow :=
  let parsed := if hasProps then parse_properties raw.properties else emptyParsed
  { id := i
    price_value := (raw.price_value.bind parseNum).getD 0
    category := parsed.category
    real_estate_type := parsed.real_estate_type
    rooms := numericFill0 parsed.rooms
    bathrooms := numericFill0 parsed.bathrooms
    garage_spaces := numericFill0 parsed.garage_spaces }

/-- The range filter predicate of app.py line 135:
`(df['price_value'] >= 100) & (df['price_value'] <= 10000)`. -/
def inPriceRange (q : ℚ) : Bool := decide (100 ≤ q) && decide (q ≤ 10000)

/-- The ingestion pipeline for the claim-relevant columns: id assignment
(line 61), per-row normalization (lines 110-133), then the range filter
(line 135).  `hasProps` says whether the source table has a `properties`
column. -/
def ingest (hasProps : Bool) (rows : List RawRow) : List NormRow :=
  ((assignIds 1 rows).map (fun p => normalizeRaw hasProps p.1 p.2)).filter
    (fun r => inPriceRange r.price_value)

/-! ## Query engine (`atualizar_dashboard`, app.py lines 316-359)

The base table handed to the callback is modelled as a `Table`: its rows
(already normalized) plus presence flags for the four columns whose
presence the callback's code depends on.  `date`, `subject`, `title` and
`professionalad` come straight from the CSV (`date` is decoded only when
present, line 63-64; the other three are never created by the
normalizer), so any of them can be absent.  All remaining referenced
columns are created unconditionally by the normalizer and are therefore
always present. -/

/-- One row of the base table as seen by the query engine.  `subject` and
`title` hold the string form of the cells (the `astype(str)` of line 357
turns NaN into the string "nan", so the fields are plain strings);
`date` is the decoded epoch-seconds timestamp, `none` for NaT;
`professionalad` is the raw flag, `none` for NaN. -/
structure Listing where
  id : Nat
  listid : String
  subject : String
  title : String
  price_value : ℚ
  date : Option Int
  municipality : String
  ddd : String
  neighbourhood : String
  uf : String
  category : Option String
  real_estate_type : Option String
  rooms : ℚ
  bathrooms : ℚ
  garage_spaces : ℚ
  professionalad : Option Bool
  thumbnail_link : String
deriving DecidableEq, Repr

/-- The base table: rows plus presence flags for the schema-dependent
columns. -/
structure Table where
  hasDate : Bool
  hasSubject : Bool
  hasTitle : Bool
  hasProfessionalad : Bool
  rows : List Listing
deriving DecidableEq, Repr

/-- The twelve filter inputs of `atualizar_dashboard` (app.py lines
316-318).  Python falsy values that make a criterion a no-op are folded
into the neutral value of each field: `None`/empty string for the date
bounds and the search term, `None`/empty list for the dropdown
selections, `None` for the sliders and the professional flag.  The date
bounds are modelled as already-parsed epoch timestamps (the date picker
supplies well-formed dates, so `pd.to_datetime` on them cannot fail). -/
structure Criteria where
  start_date : Option Int
  end_date : Option Int
  municipios : List String
  bairros : List String
  categorias : List String
  tipos : List String
  faixa_preco : Option (ℚ × ℚ)
  faixa_quartos : Option (ℚ × ℚ)
  faixa_banheiros : Option (ℚ × ℚ)
  faixa_vagas : Option (ℚ × ℚ)
  profissional : Option Bool
  busca : String

/-- The criteria object with every criterion omitted/unset. -/
def emptyCriteria : Criteria :=
  ⟨none, none, [], [], [], [], none, none, none, none, none, ""⟩

/-- A pandas `KeyError`: the callback dereferenced a column the table does
not have. -/
inductive QueryError where
  | keyError (col : String)
deriving DecidableEq, Repr

/-- The date-range mask of app.py line 321: a row passes when its date is
non-null and lies within the inclusive bounds (comparisons against NaT are
false in pandas, so null dates are excluded). -/
def dateInRange (s e : Int) (r : Listing) : Bool :=
  match r.date with
  | some d => decide (s ≤ d) && decide (d ≤ e)
  | none => false

/-- The date-range branch of app.py lines 320-322.  Python evaluates
`start_date and end_date and df_filtrado['date'].notna().any()` left to
right: with either bound unset the column is never touched; with both
bounds set, dereferencing a missing `date` column raises `KeyError`;
otherwise the rows are filtered only when at least one date is non-null.
The branch runs first, so the rows it sees are the base table's. -/
def stageDate (t : Table) (c : Criteria) (rows : List Listing) :
    Except QueryError (List Listing) :=
  match c.start_date, c.end_date with
  | some s, some e =>
      if t.hasDate then
        if rows.any (fun r => r.date.isSome) then
          Except.ok (rows.filter (dateInRange s e))
        else Except.ok rows
      else Except.error (QueryError.keyError "date")
  | _, _ => Except.ok rows

/-- A categorical membership branch over an always-present string column
(app.py lines 323-326): no-op on an empty selection, `isin` filter
otherwise. -/
def stageIsin (sel : List String) (get : Listing → String) (rows : List Listing) :
    List Listing :=
  if sel.isEmpty then rows else rows.filter (fun r => sel.contains (get r))

/-- A categorical membership branch over a nullable column (app.py lines
327-330): `isin` is false on NaN, so null cells never match. -/
def stageIsinOpt (sel : List String) (get : Listing → Option String)
    (rows : List Listing) : List Listing :=
  if sel.isEmpty then rows
  else rows.filter (fun r =>
    match get r with
    | some v => sel.contains v
    | none => false)

/-- A numeric range branch (app.py lines 331-350): no-op when the slider
value is unset, inclusive range filter otherwise. -/
def stageRange (fx : Option (ℚ × ℚ)) (get : Listing → ℚ) (rows : List Listing) :
    List Listing :=
  match fx with
  | none => rows
  | some (lo, hi) =>
      rows.filter (fun r => decide (lo ≤ get r) && decide (get r ≤ hi))

/-- The professional-flag branch of app.py lines 351-352: explicit
tri-state (`is not None`), equality filter when set.  Dereferencing
`df_filtrado['professionalad']` raises `KeyError` when the source table
never had that column (the normalizer does not create it).  Pandas `==`
against NaN is false, so rows with a null flag never match. -/
def stageProfissional (t : Table) (c : Criteria) (rows : List Listing) :
    Except QueryError (List Listing) :=
  match c.profissional with
  | none => Except.ok rows
  | some p =>
      if t.hasProfessionalad then
        Except.ok (rows.filter (fun r => r.professionalad == some p))
      else Except.error (QueryError.keyError "professionalad")

/-! ## Free-text search (app.py lines 353-357)

`row.astype(str).str.contains(busca, case=False)` interprets `busca` as a
regular expression (`re.search` with `re.IGNORECASE`; `regex=True` is the
pandas default).  The embedding models the fragment of that regex language
in which every character is either a literal or the metacharacter `.`
(match any character except a newline); search terms containing other
metacharacters are outside the modelled fragment. -/

/-- One token of the modelled regex fragment. -/
inductive RegTok where
  | lit (c : Char)
  | dot
deriving DecidableEq, Repr

/-- The regex metacharacters of Python's `re` (quantifier braces written
as their escapes). -/
def regexMetaChars : List Char := String.data ".^$*+?[]\\|()\x7b\x7d"

/-- Whether a character is a regex metacharacter. -/
def isRegexMeta (c : Char) : Bool := regexMetaChars.contains c

/-- Tokenization of a search term within the modelled fragment: `.` is the
any-character token, everything else a literal. -/
def tokenize (pat : String) : List RegTok :=
  pat.data.map (fun c => if c == '.' then RegTok.dot else RegTok.lit c)

/-- One-token match under `re.IGNORECASE`: literals compare lower-cased,
`.` matches anything but a newline. -/
def tokMatch : RegTok → Char → Bool
  | RegTok.lit p, c => p.toLower == c.toLower
  | RegTok.dot, c => c != '\n'

/-- Whether the token list matches a prefix of the text. -/
def reMatchHere : List RegTok → List Char → Bool
  | [], _ => true
  | _ :: _, [] => false
  | t :: ts, c :: cs => tokMatch t c && reMatchHere ts cs

/-- Models `re.search` for the fragment: the token list matches starting
at some position of the text. -/
def reSearch (ts : List RegTok) : List Char → Bool
  | [] => reMatchHere ts []
  | c :: cs => reMatchHere ts (c :: cs) || reSearch ts cs

/-- The specification's wording of the free-text criterion: plain
case-insensitive substring occurrence.  Kept separate from the
source-derived `reSearch` so the two can be compared. -/
def substrAux (pat : List Char) : List Char → Bool
  | [] => pat.isEmpty
  | c :: cs => pat.isPrefixOf (c :: cs) || substrAux pat cs

/-- Case-insensitive plain-substring test (the specification's reading of
the search criterion). -/
def substrCI (pat s : String) : Bool :=
  substrAux (pat.data.map Char.toLower) (s.data.map Char.toLower)

/-- The free-text branch of app.py lines 353-357: no-op on an empty term;
otherwise the columns searched are those of `['subject', 'title']` present
in the schema; with none present the criterion is a no-op, else a row is
kept when the term matches (as a case-insensitive regex) the string form
of at least one present column. -/
def stageBusca (t : Table) (busca : String) (rows : List Listing) : List Listing :=
  if busca = "" then rows
  else if t.hasSubject || t.hasTitle then
    rows.filter (fun r =>
      (t.hasSubject && reSearch (tokenize busca) r.subject.data) ||
      (t.hasTitle && reSearch (tokenize busca) r.title.data))
  else rows

/-- The filtering half of `atualizar_dashboard` (app.py lines 319-357):
the criteria applied in source order, with the pandas `KeyError` of the
two unguarded column accesses propagated as `Except.error`.  The pipeline
starts from a copy of the base table (line 319) and never writes back to
it; in this pure embedding that immutability is inherent. -/
def atualizar_filter (t : Table) (c : Criteria) : Except QueryError (List Listing) :=
  match stageDate t c t.rows with
  | Except.error err => Except.error err
  | Except.ok r1 =>
      let r2 := stageIsin c.municipios (fun r => r.municipality) r1
      let r3 := stageIsin c.bairros (fun r => r.neighbourhood) r2
      let r4 := stageIsinOpt c.categorias (fun r => r.category) r3
      let r5 := stageIsinOpt c.tipos (fun r => r.real_estate_type) r4
      let r6 := stageRange c.faixa_preco (fun r => r.price_value) r5
      let r7 := stageRange c.faixa_quartos (fun r => r.rooms) r6
      let r8 := stageRange c.faixa_banheiros (fun r => r.bathrooms) r7
      let r9 := stageRange c.faixa_vagas (fun r => r.garage_spaces) r8
      match stageProfissional t c r9 with
      | Except.error err => Except.error err
      | Except.ok r10 => Except.ok (stageBusca t c.busca r10)

/-! ## Aggregator (app.py lines 359-424) -/

/-- Mean of a list of rationals (`Series.mean`); callers guard emptiness. -/
def listMean (l : List ℚ) : ℚ := l.sum / (l.length : ℚ)

/-- Insertion into a sorted list, for the median's sort. -/
def insertSorted (q : ℚ) : List ℚ → List ℚ
  | [] => [q]
  | x :: xs => if q ≤ x then q :: x :: xs else x :: insertSorted q xs

/-- Ascending sort of a list of rationals. -/
def sortRat (l : List ℚ) : List ℚ := l.foldr insertSorted []

/-- Median with the pandas convention: middle element for odd length, mean
of the two middle elements for even length; callers guard emptiness. -/
def listMedian (l : List ℚ) : ℚ :=
  let s := sortRat l
  let n := s.length
  if n % 2 = 1 then s.getD (n / 2) 0
  else (s.getD (n / 2 - 1) 0 + s.getD (n / 2) 0) / 2

/-- Round to the nearest integer with ties to even (the `np.round`
convention). -/
def roundHalfEven (q : ℚ) : Int :=
  if q - ⌊q⌋ = 1 / 2 then (if (2 : Int) ∣ ⌊q⌋ then ⌊q⌋ else ⌊q⌋ + 1)
  else round q

/-- Models `np.round(x, 2)`. -/
def npRound2 (q : ℚ) : ℚ := (roundHalfEven (q * 100) : ℚ) / 100

/-- Lexicographic (code-point) order on character lists, the ascending key
order of a pandas group-by. -/
def charListLt : List Char → List Char → Bool
  | [], [] => false
  | [], _ :: _ => true
  | _ :: _, [] => false
  | a :: as, b :: bs => if a < b then true else if b < a then false else charListLt as bs

/-- Insertion into a key-sorted list of strings. -/
def insertStrSorted (s : String) : List String → List String
  | [] => [s]
  | x :: xs => if charListLt s.data x.data then s :: x :: xs else x :: insertStrSorted s xs

/-- Models `df_filtrado.groupby('category', as_index=False).size()` (app.py
line 372): one `(category, count)` pair per distinct non-null category, in
ascending key order (pandas group-by drops null keys and sorts keys). -/
def groupbyCategorySize (rows : List Listing) : List (String × Nat) :=
  let keys := (rows.filterMap (fun r => r.category)).dedup
  let sorted := keys.foldr insertStrSorted []
  sorted.map (fun k => (k, (rows.filter (fun r => r.category == some k)).length))

/-- The price-distribution output (app.py lines 361-369): a 30-bin
histogram over the view's prices, or the "Sem dados para exibir" marker
figure on an empty view. -/
inductive PriceChart where
  | histogram (values : List ℚ) (nbins : Nat)
  | semDados
deriving DecidableEq, Repr

/-- The category-count output (app.py lines 371-379): the group-by result,
or the "Sem dados para exibir" marker figure on an empty view. -/
inductive CatChart where
  | bar (counts : List (String × Nat))
  | semDados
deriving DecidableEq, Repr

/-- A grouped price box-plot output (app.py lines 405-424): the (group
key, price) series handed to the box-plot renderer, or the "Sem dados para
exibir" marker figure on an empty view. -/
inductive BoxChart where
  | box (pts : List (Option String × ℚ))
  | semDados
deriving DecidableEq, Repr

/-- The statistics-table output (app.py lines 381-396): the four numeric
columns `describe` is run over (the rendering of `describe` to an HTML
table is presentation), or the "Sem dados para exibir estatísticas."
message on an empty view. -/
inductive StatsOut where
  | statsTable (price rooms bathrooms garage : List ℚ)
  | semDados
deriving DecidableEq, Repr

/-- The eleven outputs of `atualizar_dashboard` (app.py lines 426-428). -/
structure DashOutput where
  dados_tabela : List Listing
  grafico_precos : PriceChart
  grafico_categorias : CatChart
  analise_estatistica : StatsOut
  total_imoveis : Nat
  preco_medio : ℚ
  preco_mediano : ℚ
  quartos_medios : ℚ
  grafico_preco_bairro : BoxChart
  grafico_preco_municipio : BoxChart
  grafico_preco_categoria : BoxChart
deriving DecidableEq, Repr

/-- The aggregation half of `atualizar_dashboard` (app.py lines 359-424),
computed over the filtered view.  Every sub-computation is total: each one
branches on `len(df_filtrado) > 0` and produces its explicit empty-input
marker on the empty view. -/
def aggregate (view : List Listing) : DashOutput :=
  { dados_tabela := view
    grafico_precos :=
      if view.length > 0 then PriceChart.histogram (view.map (fun r => r.price_value)) 30
      else PriceChart.semDados
    grafico_categorias :=
      if view.length > 0 then CatChart.bar (groupbyCategorySize view)
      else CatChart.semDados
    analise_estatistica :=
      if view.length > 0 then
        StatsOut.statsTable (view.map (fun r => r.price_value))
          (view.map (fun r => r.rooms)) (view.map (fun r => r.bathrooms))
          (view.map (fun r => r.garage_spaces))
      else StatsOut.semDados
    total_imoveis := view.length
    preco_medio :=
      if view.length > 0 then npRound2 (listMean (view.map (fun r => r.price_value))) else 0
    preco_mediano :=
      if view.length > 0 then npRound2 (listMedian (view.map (fun r => r.price_value))) else 0
    quartos_medios :=
      if view.length > 0 then npRound2 (listMean (view.map (fun r => r.rooms))) else 0
    grafico_preco_bairro :=
      if view.length > 0 then
        BoxChart.box (view.map (fun r => (some r.neighbourhood, r.price_value)))
      else BoxChart.semDados
    grafico_preco_municipio :=
      if view.length > 0 then
        BoxChart.box (view.map (fun r => (some r.municipality, r.price_value)))
      else BoxChart.semDados
    grafico_preco_categoria :=
      if view.length > 0 then
        BoxChart.box (view.map (fun r => (r.category, r.price_value)))
      else BoxChart.semDados }

/-- The full callback: filter, then aggregate.  An error of the filtering
half propagates (the callback body raises out of the handler). -/
def atualizar (t : Table) (c : Criteria) : Except QueryError DashOutput :=
  match atualizar_filter t c with
  | Except.error err => Except.error err
  | Except.ok view => Except.ok (aggregate view)

/-- Observation of whether a query produced a result at all. -/
def exceptIsOk {ε α : Type} : Except ε α → Bool
  | Except.ok _ => true
  | Except.error _ => false

/-! ## Thumbnail formatter and popup URL extraction
(`create_thumbnail_html`, app.py lines 137-140, and the extraction inside
`exibir_imagem`, lines 462-479) -/

/-- Python `str.strip`'s whitespace set (the characters the claims
exercise plus the two less common ASCII ones). -/
def pyIsSpace (c : Char) : Bool :=
  c == ' ' || c == '\t' || c == '\n' || c == '\r' || c == Char.ofNat 11 || c == Char.ofNat 12

/-- Models Python `url.strip()`. -/
def pyStrip (s : String) : String :=
  String.mk (((s.data.dropWhile pyIsSpace).reverse.dropWhile pyIsSpace).reverse)

/-- Models `create_thumbnail_html` (app.py lines 137-140): the empty
string for a null (`pd.isna`) or blank-after-strip URL, otherwise the
fixed markup fragment embedding the URL. -/
def create_thumbnail_html (url : Option String) : String :=
  match url with
  | none => ""
  | some u =>
      if pyStrip u = "" then ""
      else "<img src=\"" ++ u ++ "\" class=\"thumb-img\" />"

/-- Models Python `haystack.find(pat)` on character lists: index of the
first occurrence, `none` for the -1 result. -/
def findSub (pat : List Char) : List Char → Option Nat
  | [] => if pat.isEmpty then some 0 else none
  | c :: l =>
      if pat.isPrefixOf (c :: l) then some 0
      else (findSub pat l).map (fun n => n + 1)

/-- Models the URL extraction of `exibir_imagem` (app.py lines 469-476):
on a truthy cell, find the first `src="`, then the next `"`, and slice the
text between them; Python's `find` returning -1 for the closing quote
makes the slice end at `[start:-1]`.  `none` models the branches that
return no URL. -/
def exibir_extract (cell : String) : Option String :=
  if cell.data.isEmpty then none
  else
    match findSub (String.data "src=\"") cell.data with
    | none => none
    | some i =>
        match (findSub ['"'] (cell.data.drop (i + 5))).map (fun n => n + (i + 5)) with
        | some e => some (String.mk ((cell.data.drop (i + 5)).take (e - (i + 5))))
        | none =>
            some (String.mk ((cell.data.drop (i + 5)).take (cell.data.length - 1 - (i + 5))))

/-! ## Helper lemmas -/

theorem mem_of_mem_assignIds {p : Nat × RawRow} :
    ∀ {i : Nat} {rows : List RawRow}, p ∈ assignIds i rows → p.2 ∈ rows := by
  intro i rows
  induction rows generalizing i with
  | nil => intro h; cases h
  | cons r rs ih =>
      intro h
      cases h with
      | head => exact List.mem_cons_self _ _
      | tail _ h => exact List.mem_cons_of_mem _ (ih h)

theorem assignIds_map_id (hp : Bool) :
    ∀ (i : Nat) (rows : List RawRow),
      (((assignIds i rows).map (fun p => normalizeRaw hp p.1 p.2)).map (fun r => r.id))
        = List.range' i rows.length := by
  intro i rows
  induction rows generalizing i with
  | nil => rfl
  | cons r rs ih =>
      simp only [assignIds, List.map_cons, List.length_cons, List.range'_succ,
        List.cons.injEq]
      exact ⟨rfl, ih (i + 1)⟩

theorem numericFill0_nonneg (v : Option PropVal) (h : coercedNonneg v = true) :
    0 ≤ numericFill0 v := by
  unfold coercedNonneg at h
  unfold numericFill0
  cases hv : to_numeric_prop v with
  | none => simp [hv]
  | some q => rw [hv] at h; simpa [hv] using h

/-! ## Claims about the ingestion pipeline -/

/-- Claim C1: every row of the base table has a numeric `price_value` with
`100 ≤ price_value ≤ 10000`; rows outside the inclusive range — including
rows whose missing or unparseable price was filled with 0 — are dropped by
the range filter (app.py line 135), not clamped.  Numericness is carried
by the type of the field (the zero fill of line 133 leaves no nulls); this
theorem states the range invariant for every surviving row. -/
theorem c1_price_range_invariant (hasProps : Bool) (rows : List RawRow) (r : NormRow)
    (hmem : r ∈ ingest hasProps rows) :
    100 ≤ r.price_value ∧ r.price_value ≤ 10000 := by
  unfold ingest at hmem
  rw [List.mem_filter] at hmem
  have h := hmem.2
  unfold inPriceRange at h
  rw [Bool.and_eq_true, decide_eq_true_eq, decide_eq_true_eq] at h
  exact h

/-- Witness for C1 at a concrete one-row input with price "500". -/
theorem c1_witness :
    (⟨1, 500, none, none, 0, 0, 0⟩ : NormRow) ∈ ingest true [⟨some "500", none⟩] ∧
    (100 ≤ (⟨1, 500, none, none, 0, 0, 0⟩ : NormRow).price_value ∧
      (⟨1, 500, none, none, 0, 0, 0⟩ : NormRow).price_value ≤ 10000) :=
  ⟨by decide, c1_price_range_invariant true [⟨some "500", none⟩] _ (by decide)⟩

/-- Concrete raw row whose `properties` supplies rooms = -2 with an
in-range price. -/
def rawNegRooms : RawRow := ⟨some "500", some [⟨some "rooms", PropVal.pnum (-2)⟩]⟩

/-- Counterexample to claim C2 as stated: a source `properties` value of
-2 for rooms passes `pd.to_numeric` unchanged and `fillna(0)` does not
touch it (app.py line 125), so the base table exposes a negative rooms
value: the quantified claim is false at this input. -/
theorem c2_counterexample :
    ¬ (∀ r ∈ ingest true [rawNegRooms],
        0 ≤ r.rooms ∧ 0 ≤ r.bathrooms ∧ 0 ≤ r.garage_spaces) := by
  decide

/-- Claim C2 as amended: rooms, bathrooms and garage_spaces are always
present, numeric and non-null after normalization (the coercion-then-fill
of app.py lines 125-127; presence and numericness are carried by the
field types), and they are non-negative PROVIDED every supplied value
that survives numeric coercion is non-negative — a supplied negative
number is preserved as-is, not clamped. -/
theorem c2_amended_nonneg (hasProps : Bool) (rows : List RawRow)
    (h : (rows.all (fun raw =>
        coercedNonneg (parse_properties raw.properties).rooms &&
        (coercedNonneg (parse_properties raw.properties).bathrooms &&
          coercedNonneg (parse_properties raw.properties).garage_spaces))) = true)
    (r : NormRow) (hmem : r ∈ ingest hasProps rows) :
    0 ≤ r.rooms ∧ 0 ≤ r.bathrooms ∧ 0 ≤ r.garage_spaces := by
  unfold ingest at hmem
  rw [List.mem_filter, List.mem_map] at hmem
  obtain ⟨⟨p, hp, hr⟩, -⟩ := hmem
  subst hr
  cases hasProps with
  | false =>
      refine ⟨?_, ?_, ?_⟩ <;>
        simp [normalizeRaw, emptyParsed, numericFill0, to_numeric_prop]
  | true =>
      have hraw := mem_of_mem_assignIds hp
      have hall := (List.all_eq_true.mp h) p.2 hraw
      rw [Bool.and_eq_true, Bool.and_eq_true] at hall
      refine ⟨?_, ?_, ?_⟩ <;> simp only [normalizeRaw, if_pos] <;>
        first
        | exact numericFill0_nonneg _ hall.1
        | exact numericFill0_nonneg _ hall.2.1
        | exact numericFill0_nonneg _ hall.2.2

/-- Witness for the amended C2 at a concrete one-row input whose supplied
rooms value is 3. -/
theorem c2_amended_witness :
    (⟨1, 500, none, none, 3, 0, 0⟩ : NormRow) ∈
        ingest true [⟨some "500", some [⟨some "rooms", PropVal.pnum 3⟩]⟩] ∧
    (0 ≤ (⟨1, 500, none, none, 3, 0, 0⟩ : NormRow).rooms ∧
      0 ≤ (⟨1, 500, none, none, 3, 0, 0⟩ : NormRow).bathrooms ∧
      0 ≤ (⟨1, 500, none, none, 3, 0, 0⟩ : NormRow).garage_spaces) :=
  ⟨by decide,
    c2_amended_nonneg true [⟨some "500", some [⟨some "rooms", PropVal.pnum 3⟩]⟩]
      (by decide) _ (by decide)⟩

/-- Concrete raw input whose first row is dropped by the range filter. -/
def rawsGap : List RawRow := [⟨some "50", none⟩, ⟨some "500", none⟩]

/-- Counterexample to claim C3 as stated: ids are assigned (app.py line
61) BEFORE the range filter (line 135), so when the filter drops a row
the surviving ids are not a dense 1..N sequence: here the base table has
one row and its id is 2, not 1. -/
theorem c3_counterexample :
    ¬ ((ingest true rawsGap).map (fun r => r.id)
        = List.range' 1 (ingest true rawsGap).length) := by
  decide

/-- Claim C3 as amended: ids are assigned as the dense sequence 1..N over
the RAW rows, before the range filter; on the base table they are
therefore strictly increasing, unique (pairwise distinct follows from
strictly increasing), and lie in 1..N_raw — and they form the dense
sequence 1..N exactly matching row order whenever the range filter
dropped nothing (in particular the ids are never reused or
reassigned). -/
theorem c3_amended_ids (hp : Bool) (rows : List RawRow) :
    List.Pairwise (· < ·) ((ingest hp rows).map (fun r => r.id)) ∧
    ((ingest hp rows).map (fun r => r.id)).all
      (fun i => decide (1 ≤ i) && decide (i ≤ rows.length)) = true ∧
    ((ingest hp rows).length = rows.length →
      (ingest hp rows).map (fun r => r.id) = List.range' 1 rows.length) := by
  have hsub : List.Sublist ((ingest hp rows).map (fun r => r.id))
      (((assignIds 1 rows).map (fun p => normalizeRaw hp p.1 p.2)).map (fun r => r.id)) :=
    List.Sublist.map _ (List.filter_sublist _)
  rw [assignIds_map_id] at hsub
  refine ⟨?_, ?_, ?_⟩
  · exact List.Pairwise.sublist hsub (List.pairwise_lt_range' 1 rows.length)
  · rw [List.all_eq_true]
    intro i hi
    have hmem := hsub.subset hi
    rw [List.mem_range'] at hmem
    obtain ⟨j, hj, rfl⟩ := hmem
    rw [Bool.and_eq_true, decide_eq_true_eq, decide_eq_true_eq]
    omega
  · intro hlen
    apply List.Sublist.eq_of_length hsub
    rw [List.length_map, List.length_range', hlen]

/-- Witness for the amended C3 at a concrete two-row input the filter
keeps whole: the implication's conclusion gives the dense id sequence. -/
theorem c3_amended_witness :
    (ingest true [⟨some "500", none⟩, ⟨some "600", none⟩]).map (fun r => r.id)
      = List.range' 1 ([(⟨some "500", none⟩ : RawRow), ⟨some "600", none⟩].length) :=
  (c3_amended_ids true [⟨some "500", none⟩, ⟨some "600", none⟩]).2.2 (by decide)

/-- The `properties` value of claim C7's example: rooms parses to 3,
bathrooms fails numeric coercion. -/
def props7 : List PropItem :=
  [⟨some "rooms", PropVal.pstr "3"⟩, ⟨some "bathrooms", PropVal.pstr "bad"⟩]

/-- Claim C7: decoding `properties` coerces the numeric property fields
first and THEN fills coercion failures and absences with 0 (app.py lines
95-108 and 125-127), so an unparseable value ends up identical to an
absent one.  With the example value the row gets rooms = 3, bathrooms = 0
and garage_spaces = 0, and (for any price inside the range gate) the row
stays in the base table — the bad bathrooms value never drops it.  The
second conjunct states the unparseable-equals-absent equality for the
bathrooms field explicitly. -/
theorem c7_coercion_defaults (praw : Option String)
    (h : 100 ≤ (praw.bind parseNum).getD 0 ∧ (praw.bind parseNum).getD 0 ≤ 10000) :
    ingest true [⟨praw, some props7⟩] =
      [{ id := 1, price_value := (praw.bind parseNum).getD 0, category := none,
         real_estate_type := none, rooms := 3, bathrooms := 0, garage_spaces := 0 }] ∧
    numericFill0 (parse_properties (some props7)).bathrooms =
      numericFill0 (parse_properties (some [⟨some "rooms", PropVal.pstr "3"⟩])).bathrooms := by
  constructor
  · have hp : inPriceRange ((praw.bind parseNum).getD 0) = true := by
      unfold inPriceRange
      rw [decide_eq_true h.1, decide_eq_true h.2, Bool.and_self]
    have hfield : normalizeRaw true 1 ⟨praw, some props7⟩ =
        { id := 1, price_value := (praw.bind parseNum).getD 0, category := none,
          real_estate_type := none, rooms := 3, bathrooms := 0, garage_spaces := 0 } := rfl
    unfold ingest
    rw [show assignIds 1 [(⟨praw, some props7⟩ : RawRow)]
          = [(1, (⟨praw, some props7⟩ : RawRow))] from rfl]
    rw [List.map_cons, List.map_nil, hfield]
    simp [List.filter_cons, hp]
  · decide

/-- Witness for C7 at the concrete price "500". -/
theorem c7_witness :
    ingest true [⟨some "500", some props7⟩] =
      [{ id := 1, price_value := ((some "500").bind parseNum).getD 0, category := none,
         real_estate_type := none, rooms := 3, bathrooms := 0, garage_spaces := 0 }] :=
  (c7_coercion_defaults (some "500") (by decide)).1

/-! ## Claims about the query engine and aggregator -/

/-- A sample normalized base-table row used in concrete instantiations. -/
def sampleListing : Listing :=
  { id := 1, listid := "10", subject := "abc", title := "casa no centro",
    price_value := 500, date := some 1700000000, municipality := "Manaus",
    ddd := "92", neighbourhood := "Centro", uf := "AM", category := some "Aluguel",
    real_estate_type := some "Apartamento", rooms := 2, bathrooms := 1,
    garage_spaces := 1, professionalad := some true, thumbnail_link := "" }

/-- A base table that has every schema-dependent column. -/
def tableSample : Table := ⟨true, true, true, true, [sampleListing]⟩

theorem stageDate_isOk (t : Table) (c : Criteria) (rows : List Listing)
    (hdate : c.start_date.isSome = true → c.end_date.isSome = true → t.hasDate = true) :
    ∃ v, stageDate t c rows = Except.ok v := by
  unfold stageDate
  cases hs : c.start_date with
  | none => exact ⟨rows, rfl⟩
  | some s =>
      cases he : c.end_date with
      | none => exact ⟨rows, rfl⟩
      | some e =>
          have ht : t.hasDate = true := hdate (by rw [hs]; rfl) (by rw [he]; rfl)
          by_cases ha : rows.any (fun r => r.date.isSome) = true
          · exact ⟨List.filter (dateInRange s e) rows, by simp [ht, ha]⟩
          · exact ⟨rows, by simp [ht, ha]⟩

theorem stageDate_ne_error (t : Table) (c : Criteria) (rows : List Listing)
    (hdate : c.start_date.isSome = true → c.end_date.isSome = true → t.hasDate = true)
    (err : QueryError) : stageDate t c rows ≠ Except.error err := by
  intro hcon
  obtain ⟨v, hv⟩ := stageDate_isOk t c rows hdate
  rw [hv] at hcon
  exact Except.noConfusion hcon

theorem stageProfissional_isOk (t : Table) (c : Criteria) (rows : List Listing)
    (hprof : c.profissional.isSome = true → t.hasProfessionalad = true) :
    ∃ v, stageProfissional t c rows = Except.ok v := by
  unfold stageProfissional
  cases hp : c.profissional with
  | none => exact ⟨rows, rfl⟩
  | some p =>
      have ht : t.hasProfessionalad = true := hprof (by rw [hp]; rfl)
      exact ⟨List.filter (fun r => r.professionalad == some p) rows, by simp [ht]⟩

theorem stageProfissional_ne_error (t : Table) (c : Criteria) (rows : List Listing)
    (hprof : c.profissional.isSome = true → t.hasProfessionalad = true)
    (err : QueryError) : stageProfissional t c rows ≠ Except.error err := by
  intro hcon
  obtain ⟨v, hv⟩ := stageProfissional_isOk t c rows hprof
  rw [hv] at hcon
  exact Except.noConfusion hcon

theorem atualizar_filter_isOk (t : Table) (c : Criteria)
    (hdate : c.start_date.isSome = true → c.end_date.isSome = true → t.hasDate = true)
    (hprof : c.profissional.isSome = true → t.hasProfessionalad = true) :
    exceptIsOk (atualizar_filter t c) = true := by
  unfold atualizar_filter
  split
  next err heq => exact absurd heq (stageDate_ne_error t c t.rows hdate err)
  next r1 heq =>
    dsimp only
    split
    next err2 heq2 => exact absurd heq2 (stageProfissional_ne_error t c _ hprof err2)
    next r10 heq2 => rfl

/-- Table whose source CSV never contained a `professionalad` column. -/
def tableNoProf : Table := ⟨true, true, true, false, [sampleListing]⟩

/-- Criteria supplying an explicit professional flag of `False`. -/
def critProfFalse : Criteria := { emptyCriteria with profissional := some false }

/-- Counterexample to claim C5 as stated: with the `professionalad` column
absent from the source table and the professional criterion supplied, line
352 of app.py dereferences the missing column and the query raises a
`KeyError` instead of returning any (even empty) result. -/
theorem c5_counterexample :
    atualizar tableNoProf critProfFalse
        = Except.error (QueryError.keyError "professionalad") ∧
    exceptIsOk (atualizar tableNoProf critProfFalse) = false := by
  exact ⟨rfl, rfl⟩

/-- Claim C5 as amended: after ingestion succeeds, evaluating a query
never raises and always returns some (possibly empty) result, PROVIDED the
columns the criteria dereference exist: the table has a `date` column
whenever both date bounds are supplied, and a `professionalad` column
whenever the professional criterion is set (otherwise the query raises a
`KeyError`, app.py lines 320 and 352).  The search-term hypothesis
restricts to terms without regex metacharacters, the fragment in which the
embedding models `str.contains` (a term with metacharacters is fed to the
regex engine and an ill-formed one raises there). -/
theorem c5_amended_total_queries (t : Table) (c : Criteria)
    (hdate : c.start_date.isSome = true → c.end_date.isSome = true → t.hasDate = true)
    (hprof : c.profissional.isSome = true → t.hasProfessionalad = true)
    (hbusca : c.busca.data.all (fun ch => !(isRegexMeta ch)) = true) :
    exceptIsOk (atualizar t c) = true := by
  have hok := atualizar_filter_isOk t c hdate hprof
  unfold atualizar
  cases hfe : atualizar_filter t c with
  | error e => rw [hfe] at hok; simp [exceptIsOk] at hok
  | ok v => rfl

/-- Criteria exercising several filters at once, with all referenced
columns present. -/
def critMixed : Criteria :=
  { emptyCriteria with
      start_date := some 0, end_date := some 1800000000,
      municipios := ["Manaus"], faixa_preco := some (100, 1000),
      profissional := some true, busca := "casa" }

/-- Witness for the amended C5 at a concrete table and criteria set. -/
theorem c5_amended_witness : exceptIsOk (atualizar tableSample critMixed) = true :=
  c5_amended_total_queries tableSample critMixed (fun _ _ => rfl) (fun _ => rfl)
    (by decide)

theorem dateInRange_iff (s e : Int) (r : Listing) :
    dateInRange s e r = true ↔ ∃ d, r.date = some d ∧ s ≤ d ∧ d ≤ e := by
  unfold dateInRange
  cases hd : r.date with
  | none => simp
  | some d => simp [Bool.and_eq_true, decide_eq_true_eq]

/-- Claim C6 as amended: PROVIDED the base table has a `date` column, the
date-range criterion filters exactly when both bounds are supplied and at
least one base-table row has a non-null date — keeping exactly the rows
whose date is non-null and lies in [start, end] inclusive (so every
null-date row is excluded while the criterion is active) — and is a no-op
(not a filter-to-empty) whenever a bound is missing or every date is
null.  When the `date` column is absent and both bounds are supplied, the
criterion instead raises a `KeyError` (app.py line 320), which is what
forces the proviso. -/
theorem c6_amended_date_criterion (t : Table) (c : Criteria) (h : t.hasDate = true) :
    (∀ s e, c.start_date = some s → c.end_date = some e →
      t.rows.any (fun r => r.date.isSome) = true →
        stageDate t c t.rows = Except.ok (t.rows.filter (dateInRange s e)) ∧
        ∀ r, r ∈ t.rows.filter (dateInRange s e) ↔
          (r ∈ t.rows ∧ ∃ d, r.date = some d ∧ s ≤ d ∧ d ≤ e)) ∧
    ((c.start_date = none ∨ c.end_date = none ∨
        t.rows.any (fun r => r.date.isSome) = false) →
      stageDate t c t.rows = Except.ok t.rows) := by
  constructor
  · intro s e hs he ha
    constructor
    · unfold stageDate
      rw [hs, he]
      simp [h, ha]
    · intro r
      rw [List.mem_filter, dateInRange_iff]
  · intro hcase
    rcases hcase with h1 | h2 | h3
    · unfold stageDate
      rw [h1]
    · unfold stageDate
      cases hs : c.start_date with
      | none => rfl
      | some s => simp [h2]
    · unfold stageDate
      cases hs : c.start_date with
      | none => rfl
      | some s =>
          cases he : c.end_date with
          | none => rfl
          | some e => simp [h, h3]

/-- Criteria supplying only the two date bounds. -/
def critBothDates : Criteria :=
  { emptyCriteria with start_date := some 0, end_date := some 1800000000 }

/-- Witness for the amended C6: active filtering at a concrete table with
a non-null date and both bounds supplied. -/
theorem c6_amended_witness :
    stageDate tableSample critBothDates tableSample.rows
      = Except.ok (tableSample.rows.filter (dateInRange 0 1800000000)) :=
  ((c6_amended_date_criterion tableSample critBothDates rfl).1 0 1800000000
    rfl rfl rfl).1

/-- A row whose date is null. -/
def sampleListingNoDate : Listing := { sampleListing with date := none }

/-- A base table whose source CSV never contained a `date` column (no row
can carry a date). -/
def tableNoDate : Table := ⟨false, true, true, true, [sampleListingNoDate]⟩

/-- Counterexample to claim C6 as stated: with no `date` column at all, no
row of the base table has a non-null date, so the claim requires the
criterion to be a no-op; the code instead raises a `KeyError` dereferencing
the missing column (app.py line 320). -/
theorem c6_counterexample :
    stageDate tableNoDate critBothDates tableNoDate.rows
        = Except.error (QueryError.keyError "date") ∧
    ¬ stageDate tableNoDate critBothDates tableNoDate.rows
        = Except.ok tableNoDate.rows := by
  refine ⟨rfl, fun hcon => ?_⟩
  exact Except.noConfusion hcon

/-- Claim C8: on an empty filtered view every aggregator sub-computation
completes (they are total functions of the view) and returns its
documented empty-input marker: the "Sem dados para exibir" figure for the
price distribution, the category counts and the three grouped box
summaries, the "Sem dados para exibir estatísticas." message for the
statistics table, and zero for all four summary scalars (app.py lines
361-424). -/
theorem c8_empty_view_markers (t : Table) (c : Criteria)
    (h : atualizar_filter t c = Except.ok []) :
    atualizar t c = Except.ok
      { dados_tabela := [], grafico_precos := PriceChart.semDados,
        grafico_categorias := CatChart.semDados,
        analise_estatistica := StatsOut.semDados, total_imoveis := 0,
        preco_medio := 0, preco_mediano := 0, quartos_medios := 0,
        grafico_preco_bairro := BoxChart.semDados,
        grafico_preco_municipio := BoxChart.semDados,
        grafico_preco_categoria := BoxChart.semDados } := by
  unfold atualizar
  rw [h]
  rfl

/-- Criteria whose price range no base-table row can satisfy (the range
gate keeps prices at most 10000). -/
def critImpossiblePrice : Criteria :=
  { emptyCriteria with faixa_preco := some (20000, 30000) }

/-- Witness for C8: a query on a populated table whose criteria match no
row. -/
theorem c8_witness :
    atualizar tableSample critImpossiblePrice = Except.ok
      { dados_tabela := [], grafico_precos := PriceChart.semDados,
        grafico_categorias := CatChart.semDados,
        analise_estatistica := StatsOut.semDados, total_imoveis := 0,
        preco_medio := 0, preco_mediano := 0, quartos_medios := 0,
        grafico_preco_bairro := BoxChart.semDados,
        grafico_preco_municipio := BoxChart.semDados,
        grafico_preco_categoria := BoxChart.semDados } :=
  c8_empty_view_markers tableSample critImpossiblePrice (by rfl)

/-- Claim C9: with every criterion omitted the query engine returns a view
identical to the base table — the same rows in the same order — and (the
pipeline being pure, starting from the copy of app.py line 319) the base
table itself is untouched. -/
theorem c9_no_criteria_identity (t : Table) :
    atualizar_filter t emptyCriteria = Except.ok t.rows := rfl

/-! ## Claim C4: free-text search -/

theorem tokenize_eq_map_lit (busca : String)
    (hmeta : busca.data.all (fun ch => !(isRegexMeta ch)) = true) :
    tokenize busca = busca.data.map RegTok.lit := by
  unfold tokenize
  apply List.map_congr_left
  intro c hc
  have hm := List.all_eq_true.mp hmeta c hc
  rw [Bool.not_eq_true'] at hm
  rw [if_neg]
  intro hdot
  have hcd : c = '.' := by exact_mod_cast eq_of_beq hdot
  subst hcd
  exact absurd hm (by decide)

theorem reMatchHere_lit (l : List Char) :
    ∀ s : List Char, reMatchHere (l.map RegTok.lit) s
      = (l.map Char.toLower).isPrefixOf (s.map Char.toLower) := by
  induction l with
  | nil => intro s; simp [reMatchHere]
  | cons a as ih =>
      intro s
      cases s with
      | nil => simp [reMatchHere]
      | cons b bs =>
          simp only [List.map_cons, reMatchHere, tokMatch, List.isPrefixOf_cons₂, ih bs]

theorem reSearch_lit (l : List Char) :
    ∀ s : List Char, reSearch (l.map RegTok.lit) s
      = substrAux (l.map Char.toLower) (s.map Char.toLower) := by
  intro s
  induction s with
  | nil =>
      cases l with
      | nil => rfl
      | cons a as => rfl
  | cons c cs ih =>
      simp only [reSearch, substrAux, List.map_cons, reMatchHere_lit, ih]

/-- One row with subject "abc" in a table whose only text column is
`subject`. -/
def tableSubjectOnly : Table := ⟨true, true, false, true, [sampleListing]⟩

/-- The search term "a.c": a valid regex that is not a plain substring of
"abc". -/
def critDotSearch : Criteria := { emptyCriteria with busca := "a.c" }

/-- Counterexample to claim C4 as stated: `str.contains` interprets the
term as a regular expression (pandas default `regex=True`), so the term
"a.c" KEEPS the row with subject "abc" (the `.` matches `b`) although
"a.c" does not occur as a plain substring of "abc" — row kept, substring
criterion false. -/
theorem c4_counterexample :
    atualizar_filter tableSubjectOnly critDotSearch = Except.ok [sampleListing] ∧
    substrCI "a.c" sampleListing.subject = false := by
  exact ⟨rfl, by decide⟩

/-- Claim C4 as amended: the free-text criterion is a case-insensitive
REGEX search over whichever of `subject`, `title` are present; restricted
to search terms without regex metacharacters it coincides with the
claim's plain-substring semantics: a row is kept exactly when the term
occurs case-insensitively in the string form of at least one present text
column.  With neither text column present (or an empty term) the
criterion is a no-op, as claimed. -/
theorem c4_amended_search (t : Table) (busca : String) (rows : List Listing)
    (hmeta : busca.data.all (fun ch => !(isRegexMeta ch)) = true) :
    (t.hasSubject = false → t.hasTitle = false → stageBusca t busca rows = rows) ∧
    (busca = "" → stageBusca t busca rows = rows) ∧
    (busca ≠ "" → (t.hasSubject || t.hasTitle) = true →
      ∀ r, r ∈ stageBusca t busca rows ↔
        (r ∈ rows ∧ ((t.hasSubject && substrCI busca r.subject) ||
                     (t.hasTitle && substrCI busca r.title)) = true)) := by
  have htok : tokenize busca = busca.data.map RegTok.lit := tokenize_eq_map_lit busca hmeta
  refine ⟨?_, ?_, ?_⟩
  · intro hs ht
    unfold stageBusca
    by_cases hb : busca = ""
    · rw [if_pos hb]
    · rw [if_neg hb, hs, ht]
      simp
  · intro hb
    unfold stageBusca
    rw [if_pos hb]
  · intro hb hcols r
    unfold stageBusca
    rw [if_neg hb, if_pos hcols, List.mem_filter]
    rw [htok, reSearch_lit, reSearch_lit]
    exact Iff.rfl

/-- Witness for the amended C4: the metacharacter-free term "CASA" decides
membership by the substring criterion at a concrete row (its title
contains "casa"). -/
theorem c4_amended_witness :
    sampleListing ∈ stageBusca tableSample "CASA" [sampleListing] ↔
      (sampleListing ∈ [sampleListing] ∧
        ((tableSample.hasSubject && substrCI "CASA" sampleListing.subject) ||
         (tableSample.hasTitle && substrCI "CASA" sampleListing.title)) = true) :=
  (c4_amended_search tableSample "CASA" [sampleListing] (by decide)).2.2
    (by decide) rfl sampleListing

/-! ## Claim C10: thumbnail round trip -/

theorem isPrefixOf_append_self (l r : List Char) : l.isPrefixOf (l ++ r) = true := by
  induction l with
  | nil => simp
  | cons a as ih => simp [List.isPrefixOf_cons₂, ih]

theorem isPrefixOf_cons_false (p : Char) (ps : List Char) (c : Char) (l : List Char)
    (h : (p == c) = false) : (p :: ps).isPrefixOf (c :: l) = false := by
  rw [List.isPrefixOf_cons₂, h, Bool.false_and]

theorem findSub_cons_false (pat : List Char) (c : Char) (l : List Char)
    (h : pat.isPrefixOf (c :: l) = false) :
    findSub pat (c :: l) = (findSub pat l).map (fun n => n + 1) := by
  simp [findSub, h]

theorem findSub_at_start (pat rest : List Char) : findSub pat (pat ++ rest) = some 0 := by
  cases pat with
  | nil => cases rest with
    | nil => rfl
    | cons a l => simp [findSub]
  | cons a as =>
      rw [List.cons_append]
      have hpre : (a :: as).isPrefixOf (a :: (as ++ rest)) = true := by
        have hp := isPrefixOf_append_self (a :: as) rest
        rwa [List.cons_append] at hp
      simp [findSub, hpre]

theorem findSub_no_quote (u : List Char) (rest : List Char) (h : ('"' : Char) ∉ u) :
    findSub ['"'] (u ++ '"' :: rest) = some u.length := by
  induction u with
  | nil =>
      simp [findSub, List.isPrefixOf_cons₂]
  | cons c cs ih =>
      have hc : (('"' : Char) == c) = false := by
        rw [beq_eq_false_iff_ne]
        intro hq
        subst hq
        exact h (List.mem_cons_self _ _)
      have hpre : (['"'] : List Char).isPrefixOf (c :: (cs ++ '"' :: rest)) = false := by
        simp [List.isPrefixOf_cons₂, hc]
      rw [List.cons_append, findSub_cons_false _ _ _ hpre,
        ih (fun hm => h (List.mem_cons_of_mem _ hm))]
      simp

/-- Claim C10: feeding a non-null URL that is non-blank after trimming and
contains no double quote through the thumbnail formatter (app.py lines
137-140) and then extracting the text between the first `src="` and the
following `"` (the popup logic of lines 469-476) recovers exactly the
original URL; a null or blank URL formats to the empty string, from which
the extractor returns nothing. -/
theorem c10_thumbnail_roundtrip (u : String) :
    (pyStrip u ≠ "" → ('"' : Char) ∉ u.data →
      exibir_extract (create_thumbnail_html (some u)) = some u) ∧
    (pyStrip u = "" → create_thumbnail_html (some u) = "") ∧
    create_thumbnail_html none = "" ∧
    exibir_extract "" = none := by
  refine ⟨?_, ?_, rfl, rfl⟩
  · intro hne hq
    show exibir_extract
        (if pyStrip u = "" then "" else "<img src=\"" ++ u ++ "\" class=\"thumb-img\" />")
      = some u
    rw [if_neg hne]
    unfold exibir_extract
    have hdata : ("<img src=\"" ++ u ++ "\" class=\"thumb-img\" />").data
        = '<' :: 'i' :: 'm' :: 'g' :: ' ' ::
            (String.data "src=\"" ++ (u.data ++ String.data "\" class=\"thumb-img\" />")) := rfl
    rw [hdata]
    rw [if_neg (by simp)]
    have hfind : findSub (String.data "src=\"")
        ('<' :: 'i' :: 'm' :: 'g' :: ' ' ::
          (String.data "src=\"" ++ (u.data ++ String.data "\" class=\"thumb-img\" />")))
        = some 5 := by
      rw [show String.data "src=\"" = 's' :: 'r' :: 'c' :: '=' :: '"' :: ([] : List Char)
        from rfl]
      rw [findSub_cons_false _ _ _ (isPrefixOf_cons_false _ _ _ _ (by decide))]
      rw [findSub_cons_false _ _ _ (isPrefixOf_cons_false _ _ _ _ (by decide))]
      rw [findSub_cons_false _ _ _ (isPrefixOf_cons_false _ _ _ _ (by decide))]
      rw [findSub_cons_false _ _ _ (isPrefixOf_cons_false _ _ _ _ (by decide))]
      rw [findSub_cons_false _ _ _ (isPrefixOf_cons_false _ _ _ _ (by decide))]
      rw [show ('s' :: 'r' :: 'c' :: '=' :: '"' :: ([] : List Char))
            ++ (u.data ++ String.data "\" class=\"thumb-img\" />")
          = ('s' :: 'r' :: 'c' :: '=' :: '"' :: ([] : List Char))
            ++ (u.data ++ String.data "\" class=\"thumb-img\" />") from rfl]
      rw [findSub_at_start]
      rfl
    rw [hfind]
    have hquote : findSub ['"'] (u.data ++ String.data "\" class=\"thumb-img\" />")
        = some u.data.length := by
      rw [show String.data "\" class=\"thumb-img\" />"
          = '"' :: String.data " class=\"thumb-img\" />" from rfl]
      exact findSub_no_quote u.data _ hq
    have hdrop : ('<' :: 'i' :: 'm' :: 'g' :: ' ' ::
          (String.data "src=\"" ++ (u.data ++ String.data "\" class=\"thumb-img\" />"))).drop
            (5 + 5)
        = u.data ++ String.data "\" class=\"thumb-img\" />" := rfl
    dsimp only
    rw [hdrop, hquote]
    dsimp only [Option.map]
    rw [Nat.add_sub_cancel, List.take_left]
  · intro hblank
    show (if pyStrip u = "" then "" else "<img src=\"" ++ u ++ "\" class=\"thumb-img\" />")
      = ""
    rw [if_pos hblank]

/-- Witness for C10 at a concrete URL. -/
theorem c10_witness :
    exibir_extract (create_thumbnail_html (some "http://x/y.png"))
      = some "http://x/y.png" :=
  (c10_thumbnail_roundtrip "http://x/y.png").1 (by decide) (by decide)

end DashImoveis
